import Mathlib

/-!
Verification development for the pos-system repository's local-first
data-consistency core.

The definitions below are a shallow embedding of the TypeScript source:

* `src/pos-system/src/lib/database.ts` — the Dexie data model (`Product`,
  `TransactionItem`, `Transaction`) together with the CRUD hooks registered
  in the `PosDatabase` constructor.  The local store is modelled as lists of
  rows keyed by their `id` field; `new Date()` stamps are modelled by an
  explicit `now : Nat` parameter (milliseconds since epoch).  JS numbers are
  modelled as `Int` (all money/quantity arithmetic in the program is exact
  integer arithmetic in the scenarios of interest).
* `TransactionService.createTransaction` — validation pass, price
  snapshotting, totals, atomic write + inventory deduction.  The Dexie
  `db.transaction('rw', ...)` block aborts and rolls back when the callback
  throws, so every failing path of the embedding returns the original store.
  The receipt collaborator (`receiptService.generateReceipt`, a pure string
  formatter that is invoked synchronously inside the atomic block) is
  abstracted as a parameter `gen : Transaction → Except String Unit`; the
  list of transactions handed to `gen` is returned as an observable trace.
* `SyncService` (`performSync`, `pushTransactionsToCloud`,
  `pullCompleteDataset`, `syncProducts`, `pushProductToCloud`,
  `pullProductFromCloud`) and `ProductService.getAllProducts` /
  `getProductsCount` / `updateProduct` / `deleteProduct`.  Remote (supabase)
  tables are lists of snake_case rows; network/storage failures are injected
  through a `SyncEnv` record of success flags, and a thrown JS error is an
  `Except.error` that `performSync` catches and converts into a failure
  `SyncResult`, mirroring the try/catch/finally of the source.
-/

namespace Pos

/-- `Product` rows as stored by Dexie (database.ts).  The stored row always
has its primary key, so `id` is mandatory here. -/
structure Product where
  id : String
  name : String
  description : String
  costPrice : Int
  sellingPrice : Int
  quantity : Int
  isActive : Bool
  createdAt : Nat
  updatedAt : Nat
deriving Repr, DecidableEq

/-- `TransactionItem` (database.ts): embedded price snapshot. -/
structure TransactionItem where
  productId : String
  name : String
  sellingPrice : Int
  costPrice : Int
  quantity : Int
deriving Repr, DecidableEq

/-- `Transaction` rows as stored by Dexie (database.ts). -/
structure Transaction where
  id : String
  items : List TransactionItem
  total : Int
  totalCost : Int
  profit : Int
  timestamp : Nat
  synced : Bool
deriving Repr, DecidableEq

/-- `CartItem` (types/cart.ts). -/
structure CartItem where
  productId : String
  name : String
  sellingPrice : Int
  costPrice : Int
  quantity : Int
deriving Repr, DecidableEq

/-- The local Dexie database: `products` and `transactions` tables plus the
auto-increment counter backing the `'++id'` primary key of `transactions`. -/
structure Db where
  products : List Product
  transactions : List Transaction
  nextTxId : Nat
deriving Repr, DecidableEq

/-- `db.products.get(id)`. -/
def productsGet (db : Db) (id : String) : Option Product :=
  db.products.find? (fun p => p.id = id)

/-- `db.products.update(id, { quantity, updatedAt })` as issued by
`createTransaction` step 5; the `updating` hook stamps `updatedAt` with the
current time (the same value the caller passes). -/
def productsUpdateQuantity (db : Db) (id : String) (newQuantity : Int) (now : Nat) : Db :=
  { db with products := db.products.map (fun p =>
      if p.id = id then { p with quantity := newQuantity, updatedAt := now } else p) }

/-- `UpdateProductData` (ProductService.ts): a partial record of fields. -/
structure UpdateProductData where
  name : Option String := none
  description : Option String := none
  costPrice : Option Int := none
  sellingPrice : Option Int := none
  quantity : Option Int := none
  isActive : Option Bool := none
deriving Repr

/-- Applying an `UpdateProductData` to a row; the `updating` hook stamps
`updatedAt := new Date()` (ProductService.updateProduct also sets it). -/
def applyProductMods (p : Product) (u : UpdateProductData) (now : Nat) : Product :=
  { p with
    name := u.name.getD p.name
    description := u.description.getD p.description
    costPrice := u.costPrice.getD p.costPrice
    sellingPrice := u.sellingPrice.getD p.sellingPrice
    quantity := u.quantity.getD p.quantity
    isActive := u.isActive.getD p.isActive
    updatedAt := now }

/-- `ProductService.updateProduct` (part_009): `db.products.update(id, {...updates, updatedAt})`. -/
def updateProduct (db : Db) (id : String) (u : UpdateProductData) (now : Nat) : Db :=
  { db with products := db.products.map (fun p =>
      if p.id = id then applyProductMods p u now else p) }

/-- `ProductService.deleteProduct`: soft delete, `update(id, { isActive: false, updatedAt })`. -/
def deleteProduct (db : Db) (id : String) (now : Nat) : Db :=
  updateProduct db id { isActive := some false } now

/-- `db.products.put(p)`: replace the row with the same key (the `updating`
hook stamps `updatedAt := new Date()`), or insert a fresh row, in which case
the `creating` hook of database.ts stamps `createdAt`/`updatedAt` with the
current time (and `isActive` stays a real boolean). -/
def productsPut (db : Db) (p : Product) (now : Nat) : Db :=
  if db.products.any (fun q => q.id = p.id) then
    { db with products := db.products.map (fun q =>
        if q.id = p.id then { p with updatedAt := now } else q) }
  else
    { db with products := db.products ++ [{ p with createdAt := now, updatedAt := now }] }

/-- `db.bulkPutProducts` (database.ts): `bulkPut`, one `put` per row. -/
def bulkPutProducts (db : Db) (ps : List Product) (now : Nat) : Db :=
  ps.foldl (fun d p => productsPut d p now) db

/-- The `transactions` `creating` hook (database.ts lines 73–76):
`obj.timestamp = obj.timestamp || new Date(); obj.synced = false`.
(`timestamp = 0` plays the role of a JS falsy timestamp.) -/
def creatingHookTxn (t : Transaction) (now : Nat) : Transaction :=
  { t with
    timestamp := if t.timestamp = 0 then now else t.timestamp
    synced := false }

/-- `db.transactions.add(t)`: assign the next auto-increment key, run the
`creating` hook, append the row; returns the assigned key (as the string the
service stores into the returned transaction). -/
def transactionsAdd (db : Db) (t : Transaction) (now : Nat) : Db × String :=
  let newId := toString db.nextTxId
  let t' := creatingHookTxn { t with id := newId } now
  ({ db with transactions := db.transactions ++ [t'], nextTxId := db.nextTxId + 1 }, newId)

/-- `db.transactions.put(t)`: replace the row with the same key as given
(no `updating` hook is registered for transactions), or insert a fresh row
through the `creating` hook. -/
def transactionsPut (db : Db) (t : Transaction) (now : Nat) : Db :=
  if db.transactions.any (fun q => q.id = t.id) then
    { db with transactions := db.transactions.map (fun q => if q.id = t.id then t else q) }
  else
    { db with transactions := db.transactions ++ [creatingHookTxn t now] }

/-- `db.bulkPutTransactions` (database.ts): `bulkPut`, one `put` per row. -/
def bulkPutTransactions (db : Db) (ts : List Transaction) (now : Nat) : Db :=
  ts.foldl (fun d t => transactionsPut d t now) db

/-- `db.getUnsyncedTransactions()`: `where('synced').equals(0)`, i.e. the
rows stored with `synced = false`. -/
def getUnsyncedTransactions (db : Db) : List Transaction :=
  db.transactions.filter (fun t => t.synced = false)

/-- `db.markTransactionsSynced(ids)`: `where('id').anyOf(ids).modify({synced:true})`. -/
def markTransactionsSynced (db : Db) (ids : List String) : Db :=
  { db with transactions := db.transactions.map (fun t =>
      if t.id ∈ ids then { t with synced := true } else t) }

/-- `db.transactions` lookup by id (re-reading a stored transaction). -/
def getTransaction (db : Db) (i : String) : Option Transaction :=
  db.transactions.find? (fun t => t.id = i)

/-- `ProductService.getAllProducts`: all active products. -/
def getAllProducts (db : Db) : List Product :=
  db.products.filter (fun p => p.isActive = true)

/-- `ProductService.getProductsCount`: count of active products. -/
def getProductsCount (db : Db) : Nat :=
  (db.products.filter (fun p => p.isActive = true)).length

/-! ## TransactionService.createTransaction -/

/-- `TransactionResult` (TransactionService.ts); the `{} as Transaction`
placeholder of failure results is modelled as `none`. -/
structure TransactionResult where
  transaction : Option Transaction
  success : Bool
  error : Option String
deriving Repr, DecidableEq

/-- The pending inventory update collected during validation (step 1). -/
structure ProductUpdate where
  id : String
  newQuantity : Int
deriving Repr, DecidableEq

/-- Step 1 of `createTransaction`: for every cart line, fetch the product
from the pre-state, fail on a missing product or insufficient stock, and
collect the pending inventory update and the price-snapshot item.  The loop
reads only the pre-state: all mutations happen after it. -/
def validateCart (db : Db) : List CartItem → Except String (List ProductUpdate × List TransactionItem)
  | [] => .ok ([], [])
  | ci :: rest =>
    match productsGet db ci.productId with
    | none => .error ("Product not found: " ++ ci.productId)
    | some p =>
      if p.quantity < ci.quantity then
        .error ("Insufficient inventory for " ++ p.name ++ ". Available: "
          ++ toString p.quantity ++ ", Requested: " ++ toString ci.quantity)
      else
        match validateCart db rest with
        | .error e => .error e
        | .ok (us, its) =>
          .ok ({ id := ci.productId, newQuantity := p.quantity - ci.quantity } :: us,
               { productId := ci.productId, name := ci.name,
                 sellingPrice := ci.sellingPrice, costPrice := ci.costPrice,
                 quantity := ci.quantity } :: its)

/-- Step 2: `reduce((sum, item) => sum + item.sellingPrice * item.quantity, 0)`. -/
def cartTotal (its : List TransactionItem) : Int :=
  its.foldl (fun sum it => sum + it.sellingPrice * it.quantity) 0

/-- Step 2: `reduce((sum, item) => sum + item.costPrice * item.quantity, 0)`. -/
def cartTotalCost (its : List TransactionItem) : Int :=
  its.foldl (fun sum it => sum + it.costPrice * it.quantity) 0

/-- Step 5: apply the collected inventory updates in order.  Each update
overwrites the row's quantity with the value computed during validation. -/
def applyProductUpdates (db : Db) (us : List ProductUpdate) (now : Nat) : Db :=
  us.foldl (fun d u => productsUpdateQuantity d u.id u.newQuantity now) db

/-- `TransactionService.createTransaction`.  `gen` is the receipt
collaborator invoked inside the `db.transaction` block: if it raises, the
Dexie transaction aborts and every write is rolled back, and the caller
receives a failure result.  The third component is the trace of transactions
handed to the receipt collaborator. -/
def createTransaction (gen : Transaction → Except String Unit) (db : Db) (now : Nat)
    (items : List CartItem) : Db × TransactionResult × List Transaction :=
  if items.isEmpty then
    (db, { transaction := none, success := false,
           error := some "Cannot create transaction with empty cart" }, [])
  else
    match validateCart db items with
    | .error e => (db, { transaction := none, success := false, error := some e }, [])
    | .ok (updates, txItems) =>
      let total := cartTotal txItems
      let totalCost := cartTotalCost txItems
      let profit := total - totalCost
      let t : Transaction :=
        { id := "", items := txItems, total := total, totalCost := totalCost,
          profit := profit, timestamp := now, synced := false }
      let added := transactionsAdd db t now
      let db2 := applyProductUpdates added.1 updates now
      let txnWithId : Transaction := { t with id := added.2 }
      match gen txnWithId with
      | .error e => (db, { transaction := none, success := false, error := some e }, [txnWithId])
      | .ok _ => (db2, { transaction := some txnWithId, success := true, error := none }, [txnWithId])

/-- Decidable per-line stock check used to phrase the claims: the referenced
product exists and has at least the line's quantity. -/
def lineStockOkB (db : Db) (ci : CartItem) : Bool :=
  match productsGet db ci.productId with
  | none => false
  | some p => decide (ci.quantity ≤ p.quantity)

/-- Stored quantity of a product id (0 when absent); only used to state
lemmas, always guarded by `lineStockOkB`. -/
def stockQty (db : Db) (i : String) : Int :=
  ((productsGet db i).map Product.quantity).getD 0

/-! ## SyncService

Remote (supabase) rows use the snake_case field names of the cloud schema;
the sync boundary translates in both directions.  ISO date strings are
modelled by the underlying millisecond value. -/

/-- A row of the cloud `products` table. -/
structure CloudProductRow where
  id : String
  user_id : String
  name : String
  description : String
  cost_price : Int
  selling_price : Int
  quantity : Int
  is_active : Bool
  created_at : Nat
  updated_at : Nat
deriving Repr, DecidableEq

/-- A row of the cloud `transactions` table. -/
structure CloudTxnRow where
  id : String
  user_id : String
  items : List TransactionItem
  total : Int
  total_cost : Int
  profit : Int
  timestamp : Nat
deriving Repr, DecidableEq

/-- `SyncResult` (SyncService). -/
structure SyncResult where
  success : Bool
  error : Option String
  syncedTransactions : Nat
  syncedProducts : Nat
  pulledTransactions : Nat
  pulledProducts : Nat
deriving Repr, DecidableEq

/-- Failure injection for the network/storage calls the sync makes: a
`false` flag makes the corresponding supabase call throw. -/
structure SyncEnv where
  pushTxUpsertOk : Bool
  selectProductsOk : Bool
  selectTransactionsOk : Bool
  upsertProductOk : Bool
deriving Repr, DecidableEq

/-- The world `performSync` runs against: the local Dexie database, the two
cloud tables, the connectivity signal (`navigator.onLine`), the
authenticated user (`supabase.auth.getUser()`), the single-flight flag and
the `lastSyncTime` localStorage slot. -/
structure SyncState where
  db : Db
  cloudProducts : List CloudProductRow
  cloudTransactions : List CloudTxnRow
  online : Bool
  authUser : Option String
  syncInProgress : Bool
  lastSyncTime : Option Nat
deriving Repr, DecidableEq

/-- Local→cloud translation of a transaction (`pushTransactionsToCloud`). -/
def toCloudTxn (uid : String) (t : Transaction) : CloudTxnRow :=
  { id := t.id, user_id := uid, items := t.items, total := t.total,
    total_cost := t.totalCost, profit := t.profit, timestamp := t.timestamp }

/-- Cloud→local translation of a transaction (`pullCompleteDataset`):
`synced: true // Mark as synced since they came from cloud`. -/
def fromCloudTxn (ct : CloudTxnRow) : Transaction :=
  { id := ct.id, items := ct.items, total := ct.total, totalCost := ct.total_cost,
    profit := ct.profit, timestamp := ct.timestamp, synced := true }

/-- Local→cloud translation of a product (`pushProductToCloud`). -/
def toCloudProduct (uid : String) (p : Product) : CloudProductRow :=
  { id := p.id, user_id := uid, name := p.name, description := p.description,
    cost_price := p.costPrice, selling_price := p.sellingPrice,
    quantity := p.quantity, is_active := p.isActive,
    created_at := p.createdAt, updated_at := p.updatedAt }

/-- Cloud→local translation of a product (`pullProductFromCloud` /
`pullCompleteDataset`). -/
def fromCloudProduct (cp : CloudProductRow) : Product :=
  { id := cp.id, name := cp.name, description := cp.description,
    costPrice := cp.cost_price, sellingPrice := cp.selling_price,
    quantity := cp.quantity, isActive := cp.is_active,
    createdAt := cp.created_at, updatedAt := cp.updated_at }

/-- `upsert(..., { onConflict: 'id' })` on the cloud `transactions` table. -/
def cloudUpsertTxnRow (rows : List CloudTxnRow) (r : CloudTxnRow) : List CloudTxnRow :=
  if rows.any (fun q => q.id = r.id) then
    rows.map (fun q => if q.id = r.id then r else q)
  else
    rows ++ [r]

/-- `upsert(..., { onConflict: 'id' })` on the cloud `products` table. -/
def cloudUpsertProductRow (rows : List CloudProductRow) (r : CloudProductRow) :
    List CloudProductRow :=
  if rows.any (fun q => q.id = r.id) then
    rows.map (fun q => if q.id = r.id then r else q)
  else
    rows ++ [r]

/-- `SyncService.pushTransactionsToCloud`: translate the unsynced
transactions, upsert them as one call, then mark exactly the pushed ids as
synced (`.map(t => t.id!).filter(Boolean)` — the filter drops falsy ids).
An upsert error is thrown before anything is marked. -/
def pushTransactionsToCloud (env : SyncEnv) (uid : String) (s : SyncState)
    (txns : List Transaction) : SyncState × Except String Nat :=
  if env.pushTxUpsertOk = false then
    (s, .error "Failed to push transactions to cloud")
  else
    let rows := txns.map (toCloudTxn uid)
    let cloud := rows.foldl cloudUpsertTxnRow s.cloudTransactions
    let ids := (txns.map (fun t => t.id)).filter (fun i => i ≠ "")
    ({ s with cloudTransactions := cloud, db := markTransactionsSynced s.db ids },
     .ok txns.length)

/-- `SyncService.pullCompleteDataset`: pull all active cloud products of the
owner, then all cloud transactions of the owner, into the local store; the
result counts both pulls.  (The server-side `order by timestamp desc` is
omitted: the local table is keyed by the unique `id`, so the stored result
does not depend on the bulk order.) -/
def pullCompleteDataset (env : SyncEnv) (uid : String) (now : Nat) (s : SyncState) :
    SyncState × Except String (Nat × Nat) :=
  if env.selectProductsOk = false then
    (s, .error "Failed to pull products")
  else
    let cloudProds := s.cloudProducts.filter (fun r => r.user_id = uid && r.is_active)
    let s1 :=
      if cloudProds.isEmpty then s
      else { s with db := bulkPutProducts s.db (cloudProds.map fromCloudProduct) now }
    let pulledP := if cloudProds.isEmpty then 0 else cloudProds.length
    if env.selectTransactionsOk = false then
      (s1, .error "Failed to pull transactions")
    else
      let cloudTxns := s.cloudTransactions.filter (fun r => r.user_id = uid)
      let s2 :=
        if cloudTxns.isEmpty then s1
        else { s1 with db := bulkPutTransactions s1.db (cloudTxns.map fromCloudTxn) now }
      let pulledT := if cloudTxns.isEmpty then 0 else cloudTxns.length
      (s2, .ok (pulledP, pulledT))

/-- `SyncService.pushProductToCloud`: upsert one translated product row. -/
def pushProductToCloud (env : SyncEnv) (uid : String) (s : SyncState) (p : Product) :
    SyncState × Except String Unit :=
  if env.upsertProductOk = false then
    (s, .error "Failed to upsert product")
  else
    ({ s with cloudProducts := cloudUpsertProductRow s.cloudProducts (toCloudProduct uid p) },
     .ok ())

/-- `SyncService.pullProductFromCloud`: `db.products.put(localProduct)`. -/
def pullProductFromCloud (s : SyncState) (cp : CloudProductRow) (now : Nat) : SyncState :=
  { s with db := productsPut s.db (fromCloudProduct cp) now }

/-- First loop of `syncProducts`: over the captured list of local (active)
products, against the captured list of cloud rows. -/
def syncProductsLoopLocal (env : SyncEnv) (uid : String) (now : Nat) :
    List Product → List CloudProductRow → SyncState → Nat → SyncState × Except String Nat
  | [], _, s, n => (s, .ok n)
  | lp :: rest, cloud, s, n =>
    match cloud.find? (fun cp => cp.id = lp.id) with
    | none =>
      match pushProductToCloud env uid s lp with
      | (s', .error e) => (s', .error e)
      | (s', .ok _) => syncProductsLoopLocal env uid now rest cloud s' (n + 1)
    | some cp =>
      if lp.updatedAt > cp.updated_at then
        match pushProductToCloud env uid s lp with
        | (s', .error e) => (s', .error e)
        | (s', .ok _) => syncProductsLoopLocal env uid now rest cloud s' (n + 1)
      else if cp.updated_at > lp.updatedAt then
        syncProductsLoopLocal env uid now rest cloud (pullProductFromCloud s cp now) (n + 1)
      else
        syncProductsLoopLocal env uid now rest cloud s n

/-- Second loop of `syncProducts`: cloud rows absent from the captured local
list are pulled. -/
def syncProductsLoopCloud (now : Nat) :
    List CloudProductRow → List Product → SyncState → Nat → SyncState × Nat
  | [], _, s, n => (s, n)
  | cp :: rest, locals, s, n =>
    if locals.any (fun lp => lp.id = cp.id) then
      syncProductsLoopCloud now rest locals s n
    else
      syncProductsLoopCloud now rest locals (pullProductFromCloud s cp now) (n + 1)

/-- `SyncService.syncProducts`: last-writer-wins reconciliation over the
active local products and the owner's cloud rows. -/
def syncProducts (env : SyncEnv) (uid : String) (now : Nat) (s : SyncState) :
    SyncState × Except String Nat :=
  if env.selectProductsOk = false then
    (s, .error "Failed to select cloud products")
  else
    match syncProductsLoopLocal env uid now (getAllProducts s.db)
        (s.cloudProducts.filter (fun r => r.user_id = uid)) s 0 with
    | (s1, .error e) => (s1, .error e)
    | (s1, .ok n1) =>
      ((syncProductsLoopCloud now (s.cloudProducts.filter (fun r => r.user_id = uid))
          (getAllProducts s.db) s1 n1).1,
       .ok (syncProductsLoopCloud now (s.cloudProducts.filter (fun r => r.user_id = uid))
          (getAllProducts s.db) s1 n1).2)

/-- The failure result `performSync` returns without starting any work when
the device is offline. -/
def offlineResult : SyncResult :=
  { success := false, error := some "Device is offline",
    syncedTransactions := 0, syncedProducts := 0,
    pulledTransactions := 0, pulledProducts := 0 }

/-- The failure result for a rejected concurrent trigger. -/
def inProgressResult : SyncResult :=
  { success := false, error := some "Sync already in progress",
    syncedTransactions := 0, syncedProducts := 0,
    pulledTransactions := 0, pulledProducts := 0 }

/-- The catch-all failure result built from a thrown error message. -/
def failResult (e : String) : SyncResult :=
  { success := false, error := some e,
    syncedTransactions := 0, syncedProducts := 0,
    pulledTransactions := 0, pulledProducts := 0 }

/-- The body of `performSync`'s try block after the auth check: push of the
unsynced transactions (only when any exist), one-shot full pull when no
active local product exists, product reconciliation.  The first thrown
error propagates with the state reached so far (mutations before the throw
persist — the body runs in no enclosing store transaction).  On success the
counts are `(pushed, (pulledProducts, pulledTransactions), reconciled)`. -/
def syncTry (env : SyncEnv) (now : Nat) (uid : String) (s0 : SyncState) :
    SyncState × Except String (Nat × (Nat × Nat) × Nat) :=
  match (if (getUnsyncedTransactions s0.db).isEmpty then (s0, Except.ok 0)
         else pushTransactionsToCloud env uid s0 (getUnsyncedTransactions s0.db)) with
  | (s1, .error e) => (s1, .error e)
  | (s1, .ok nTx) =>
    match (if getProductsCount s1.db = 0 then pullCompleteDataset env uid now s1
           else (s1, Except.ok (0, 0))) with
    | (s2, .error e) => (s2, .error e)
    | (s2, .ok pulls) =>
      match syncProducts env uid now s2 with
      | (s3, .error e) => (s3, .error e)
      | (s3, .ok nProd) => (s3, .ok (nTx, pulls, nProd))

/-- `SyncService.performSync`: offline guard, single-flight guard, then the
try/catch/finally body — auth check, then `syncTry`, with
`setLastSyncTime` on success; every thrown error is caught and converted
into a failure result, and the in-progress flag is cleared on every path
that set it. -/
def performSync (env : SyncEnv) (now : Nat) (s : SyncState) : SyncState × SyncResult :=
  if s.online = false then
    (s, offlineResult)
  else if s.syncInProgress then
    (s, inProgressResult)
  else
    match s.authUser with
    | none => ({ s with syncInProgress := false }, failResult "User not authenticated")
    | some uid =>
      match syncTry env now uid { s with syncInProgress := true } with
      | (sN, .error e) => ({ sN with syncInProgress := false }, failResult e)
      | (sN, .ok counts) =>
        ({ sN with syncInProgress := false, lastSyncTime := some now },
         { success := true, error := none, syncedTransactions := counts.1,
           syncedProducts := counts.2.2, pulledTransactions := counts.2.1.2,
           pulledProducts := counts.2.1.1 })

/-! ## Local mutations after a transaction is created

The repository's operations that mutate the local store after a
transaction exists: product edits (including price changes) through
`ProductService.updateProduct` / `deleteProduct`, product writes through
`db.products.put` (sync pulls), the `synced`-flag update of the sync
engine, and further `createTransaction` calls.  None of them rewrites a
stored `TransactionItem`. -/

inductive DbOp where
  | updProduct (id : String) (u : UpdateProductData) (now : Nat)
  | delProduct (id : String) (now : Nat)
  | putProduct (p : Product) (now : Nat)
  | markSynced (ids : List String)
  | createTxn (gen : Transaction → Except String Unit) (now : Nat) (items : List CartItem)

def applyDbOp (db : Db) : DbOp → Db
  | .updProduct i u n => updateProduct db i u n
  | .delProduct i n => deleteProduct db i n
  | .putProduct p n => productsPut db p n
  | .markSynced ids => markTransactionsSynced db ids
  | .createTxn g n its => (createTransaction g db n its).1

def applyDbOps (db : Db) (ops : List DbOp) : Db :=
  ops.foldl applyDbOp db

/-! ## Concrete scenarios

Closed inputs used by the witnesses and counterexamples below: scenario A/B
of the specification, and small sync states. -/

/-- A receipt collaborator that never raises — the observable behavior of
the repository's `ReceiptService.generateReceipt`, which only builds and
logs a string. -/
def genOk : Transaction → Except String Unit := fun _ => .ok ()

/-- A hypothetical receipt collaborator that raises. -/
def genBad : Transaction → Except String Unit := fun _ => .error "receipt generation failed"

def p1 : Product :=
  { id := "p1", name := "P1", description := "", costPrice := 15, sellingPrice := 25,
    quantity := 50, isActive := true, createdAt := 1, updatedAt := 1 }

def p2 : Product :=
  { id := "p2", name := "P2", description := "", costPrice := 8, sellingPrice := 15,
    quantity := 30, isActive := true, createdAt := 1, updatedAt := 1 }

/-- Scenario A stock: `p1.quantity = 50`, `p2.quantity = 30`. -/
def dbA : Db := { products := [p1, p2], transactions := [], nextTxId := 1 }

/-- Scenario A cart. -/
def cartA : List CartItem :=
  [ { productId := "p1", name := "P1", sellingPrice := 25, costPrice := 15, quantity := 2 },
    { productId := "p2", name := "P2", sellingPrice := 15, costPrice := 8, quantity := 1 } ]

/-- A cart with two lines for the same product, each line within stock. -/
def cartDup : List CartItem :=
  [ { productId := "p1", name := "P1", sellingPrice := 25, costPrice := 15, quantity := 2 },
    { productId := "p1", name := "P1", sellingPrice := 25, costPrice := 15, quantity := 2 } ]

/-- Scenario B stock: a single product with `quantity = 5`. -/
def dbB : Db :=
  { products := [{ p1 with quantity := 5 }], transactions := [], nextTxId := 1 }

/-- Scenario B cart: requests `quantity = 10`. -/
def cartB : List CartItem :=
  [ { productId := "p1", name := "P1", sellingPrice := 25, costPrice := 15, quantity := 10 } ]

/-- All network calls succeed. -/
def envAll : SyncEnv :=
  { pushTxUpsertOk := true, selectProductsOk := true,
    selectTransactionsOk := true, upsertProductOk := true }

/-- A local unsynced transaction. -/
def t1 : Transaction :=
  { id := "t1", items := [], total := 0, totalCost := 0, profit := 0,
    timestamp := 3, synced := false }

/-- A cloud transaction row not present locally. -/
def t9row : CloudTxnRow :=
  { id := "t9", user_id := "u", items := [], total := 1, total_cost := 1,
    profit := 0, timestamp := 4 }

/-- Empty local product table, one local unsynced transaction, one foreign
cloud transaction. -/
def sC5 : SyncState :=
  { db := { products := [], transactions := [t1], nextTxId := 2 },
    cloudProducts := [], cloudTransactions := [t9row], online := true,
    authUser := some "u", syncInProgress := false, lastSyncTime := none }

/-- Entirely empty local store, one cloud transaction. -/
def sC6 : SyncState :=
  { db := { products := [], transactions := [], nextTxId := 1 },
    cloudProducts := [], cloudTransactions := [t9row], online := true,
    authUser := some "u", syncInProgress := false, lastSyncTime := none }

/-- An inactive cloud product row. -/
def qrow : CloudProductRow :=
  { id := "q", user_id := "u", name := "Q", description := "", cost_price := 1,
    selling_price := 2, quantity := 7, is_active := false, created_at := 1,
    updated_at := 9 }

/-- Empty local store, one inactive cloud product. -/
def sC7 : SyncState :=
  { db := { products := [], transactions := [], nextTxId := 1 },
    cloudProducts := [qrow], cloudTransactions := [], online := true,
    authUser := some "u", syncInProgress := false, lastSyncTime := none }

/-- An inactive local product that is newer than its cloud counterpart. -/
def lpInactive : Product :=
  { id := "p", name := "L", description := "", costPrice := 1, sellingPrice := 2,
    quantity := 5, isActive := false, createdAt := 1, updatedAt := 10 }

/-- The older cloud counterpart of `lpInactive`. -/
def cpOld : CloudProductRow :=
  { id := "p", user_id := "u", name := "R", description := "", cost_price := 3,
    selling_price := 4, quantity := 99, is_active := true, created_at := 1,
    updated_at := 5 }

/-- State holding the `lpInactive`/`cpOld` pair. -/
def sC4 : SyncState :=
  { db := { products := [lpInactive], transactions := [], nextTxId := 1 },
    cloudProducts := [cpOld], cloudTransactions := [], online := true,
    authUser := some "u", syncInProgress := false, lastSyncTime := none }

/-- Offline while another sync is (still) marked in progress. -/
def sC8 : SyncState := { sC5 with online := false, syncInProgress := true }

/-- The active counterpart of `lpInactive`. -/
def lpA : Product := { lpInactive with isActive := true }

/-- A cloud row newer than `lpA`. -/
def cpNew : CloudProductRow := { cpOld with updated_at := 20 }

/-- A cloud row with exactly `lpA`'s timestamp. -/
def cpEq : CloudProductRow := { cpOld with updated_at := 10 }

/-- Both present, local newer. -/
def sPush : SyncState := { sC4 with db := { sC4.db with products := [lpA] } }

/-- Both present, remote newer. -/
def sPull : SyncState := { sPush with cloudProducts := [cpNew] }

/-- Both present, equal timestamps. -/
def sTie : SyncState := { sPush with cloudProducts := [cpEq] }

/-- Present only locally. -/
def sOnlyLocal : SyncState := { sPush with cloudProducts := [] }

/-- Present only remotely. -/
def sOnlyRemote : SyncState := { sC4 with db := { sC4.db with products := [] } }

/-- Offline, idle. -/
def sC10 : SyncState := { sC5 with online := false }

/-- A second local unsynced transaction. -/
def t2 : Transaction :=
  { id := "t2", items := [], total := 2, totalCost := 1, profit := 1,
    timestamp := 4, synced := false }

/-- Scenario C: two unsynced transactions, a non-empty product table,
nothing in the cloud. -/
def sScenC : SyncState :=
  { db := { products := [p1], transactions := [t1, t2], nextTxId := 3 },
    cloudProducts := [], cloudTransactions := [], online := true,
    authUser := some "u", syncInProgress := false, lastSyncTime := none }

/-- A stored transaction with snapshotted prices. -/
def T0 : Transaction :=
  { id := "1",
    items := [{ productId := "p1", name := "P1", sellingPrice := 25, costPrice := 15,
                quantity := 2 }],
    total := 50, totalCost := 30, profit := 20, timestamp := 5, synced := false }

/-- A store holding `T0` and its referenced product. -/
def dbW : Db := { products := [p1], transactions := [T0], nextTxId := 2 }

/-- Later mutations: a price edit of the referenced product, the sync flag
flip, and a soft delete. -/
def opsW : List DbOp :=
  [ DbOp.updProduct "p1" { sellingPrice := some 999, costPrice := some 888 } 50,
    DbOp.markSynced ["1"],
    DbOp.delProduct "p1" 60 ]

/-! ## Supporting lemmas -/

theorem foldl_add_map {α : Type} (f : α → Int) (l : List α) (a : Int) :
    l.foldl (fun s x => s + f x) a = a + (l.map f).sum := by
  induction l generalizing a with
  | nil => simp
  | cons x xs ih => simp [ih (a + f x)]; ring

theorem cartTotal_eq (its : List TransactionItem) :
    cartTotal its = (its.map (fun it => it.sellingPrice * it.quantity)).sum := by
  simpa using foldl_add_map (fun it => it.sellingPrice * it.quantity) its 0

theorem cartTotalCost_eq (its : List TransactionItem) :
    cartTotalCost its = (its.map (fun it => it.costPrice * it.quantity)).sum := by
  simpa using foldl_add_map (fun it => it.costPrice * it.quantity) its 0

/-- `find?`-by-id commutes with an id-preserving map over product rows. -/
theorem find?_map_id_product (l : List Product) (g : Product → Product)
    (hg : ∀ p, (g p).id = p.id) (j : String) :
    (l.map g).find? (fun p => p.id = j) = (l.find? (fun p => p.id = j)).map g := by
  induction l with
  | nil => rfl
  | cons hd tl ih =>
    by_cases h : hd.id = j
    · simp [List.find?, hg, h]
    · simp [List.find?, hg, h, ih]

/-- `find?`-by-id commutes with an id-preserving map over transaction rows. -/
theorem find?_map_id_txn (l : List Transaction) (g : Transaction → Transaction)
    (hg : ∀ t, (g t).id = t.id) (j : String) :
    (l.map g).find? (fun t => t.id = j) = (l.find? (fun t => t.id = j)).map g := by
  induction l with
  | nil => rfl
  | cons hd tl ih =>
    by_cases h : hd.id = j
    · simp [List.find?, hg, h]
    · simp [List.find?, hg, h, ih]

theorem find?_append_of_some {α : Type} (p : α → Bool) (l l' : List α) (a : α)
    (h : l.find? p = some a) : (l ++ l').find? p = some a := by
  induction l with
  | nil => simp [List.find?] at h
  | cons hd tl ih =>
    rw [List.cons_append]
    cases hp : p hd with
    | true => rw [List.find?_cons_of_pos _ hp] at h ⊢; exact h
    | false => rw [List.find?_cons_of_neg _ (by simp [hp])] at h ⊢; exact ih h

theorem productsGet_mem (db : Db) (j : String) (p : Product)
    (h : productsGet db j = some p) : p.id = j := by
  have := List.find?_some h
  simpa using this

theorem productsGet_updateQuantity (db : Db) (i : String) (q : Int) (now : Nat)
    (j : String) :
    productsGet (productsUpdateQuantity db i q now) j =
      (productsGet db j).map
        (fun p => if p.id = i then { p with quantity := q, updatedAt := now } else p) := by
  unfold productsGet productsUpdateQuantity
  exact find?_map_id_product db.products _ (fun p => by by_cases h : p.id = i <;> simp [h]) j

theorem productsGet_updateQuantity_ne (db : Db) (i : String) (q : Int) (now : Nat)
    (j : String) (h : j ≠ i) :
    productsGet (productsUpdateQuantity db i q now) j = productsGet db j := by
  rw [productsGet_updateQuantity]
  cases hp : productsGet db j with
  | none => rfl
  | some p =>
    have hid := productsGet_mem db j p hp
    simp [hid, h]

theorem applyProductUpdates_get_not_mem (us : List ProductUpdate) (db : Db) (now : Nat)
    (j : String) (h : j ∉ us.map ProductUpdate.id) :
    productsGet (applyProductUpdates db us now) j = productsGet db j := by
  induction us generalizing db with
  | nil => rfl
  | cons u rest ih =>
    simp only [List.map_cons, List.mem_cons] at h
    push_neg at h
    show productsGet (applyProductUpdates (productsUpdateQuantity db u.id u.newQuantity now) rest now) j
      = productsGet db j
    rw [ih _ h.2, productsGet_updateQuantity_ne _ _ _ _ _ h.1]

theorem applyProductUpdates_get_mem (us : List ProductUpdate) (db : Db) (now : Nat)
    (u : ProductUpdate) (hmem : u ∈ us) (hnodup : (us.map ProductUpdate.id).Nodup) :
    productsGet (applyProductUpdates db us now) u.id =
      (productsGet db u.id).map
        (fun p => { p with quantity := u.newQuantity, updatedAt := now }) := by
  induction us generalizing db with
  | nil => cases hmem
  | cons v rest ih =>
    simp only [List.map_cons, List.nodup_cons] at hnodup
    rcases List.mem_cons.mp hmem with rfl | hrest
    · show productsGet (applyProductUpdates (productsUpdateQuantity db u.id u.newQuantity now) rest now) u.id = _
      rw [applyProductUpdates_get_not_mem rest _ now u.id hnodup.1,
        productsGet_updateQuantity]
      cases hp : productsGet db u.id with
      | none => rfl
      | some p =>
        have hid := productsGet_mem db u.id p hp
        simp [hid]
    · have hne : u.id ≠ v.id := by
        intro heq
        exact hnodup.1 (heq ▸ List.mem_map_of_mem ProductUpdate.id hrest)
      show productsGet (applyProductUpdates (productsUpdateQuantity db v.id v.newQuantity now) rest now) u.id = _
      rw [ih _ hrest hnodup.2, productsGet_updateQuantity_ne _ _ _ _ _ hne]

theorem applyProductUpdates_transactions (us : List ProductUpdate) (db : Db) (now : Nat) :
    (applyProductUpdates db us now).transactions = db.transactions := by
  induction us generalizing db with
  | nil => rfl
  | cons u rest ih => exact ih _

theorem validateCart_ok_of_all (db : Db) (items : List CartItem)
    (h : items.all (lineStockOkB db) = true) :
    validateCart db items = .ok
      (items.map (fun ci =>
        { id := ci.productId, newQuantity := stockQty db ci.productId - ci.quantity }),
       items.map (fun ci =>
        { productId := ci.productId, name := ci.name, sellingPrice := ci.sellingPrice,
          costPrice := ci.costPrice, quantity := ci.quantity })) := by
  induction items with
  | nil => rfl
  | cons ci rest ih =>
    simp only [List.all_cons, Bool.and_eq_true] at h
    have hl := h.1
    unfold lineStockOkB at hl
    cases hp : productsGet db ci.productId with
    | none => rw [hp] at hl; cases hl
    | some p =>
      rw [hp] at hl
      have hq : ¬ p.quantity < ci.quantity := by
        simp at hl; omega
      unfold validateCart
      rw [hp]
      dsimp only
      rw [if_neg hq, ih h.2]
      have : stockQty db ci.productId = p.quantity := by
        unfold stockQty; rw [hp]; rfl
      simp [this]

theorem validateCart_err_of_not_all (db : Db) (items : List CartItem)
    (h : items.all (lineStockOkB db) = false) :
    ∃ e, validateCart db items = .error e ∧
      ((∃ ci ∈ items, productsGet db ci.productId = none ∧
          e = "Product not found: " ++ ci.productId) ∨
       (∃ ci ∈ items, ∃ p, productsGet db ci.productId = some p ∧
          p.quantity < ci.quantity ∧
          e = "Insufficient inventory for " ++ p.name ++ ". Available: "
            ++ toString p.quantity ++ ", Requested: " ++ toString ci.quantity)) := by
  induction items with
  | nil => simp at h
  | cons ci rest ih =>
    simp only [List.all_cons, Bool.and_eq_true] at h
    by_cases hl : lineStockOkB db ci = true
    · have hrest : rest.all (lineStockOkB db) = false := by
        cases hall : rest.all (lineStockOkB db)
        · rfl
        · rw [hl, hall] at h; cases h
      unfold lineStockOkB at hl
      cases hp : productsGet db ci.productId with
      | none => rw [hp] at hl; cases hl
      | some p =>
        rw [hp] at hl
        have hq : ¬ p.quantity < ci.quantity := by
          simp at hl; omega
        obtain ⟨e, he, hcase⟩ := ih hrest
        refine ⟨e, ?_, ?_⟩
        · unfold validateCart
          rw [hp]
          dsimp only
          rw [if_neg hq, he]
        · rcases hcase with ⟨cj, hcj, hnone, heq⟩ | ⟨cj, hcj, q, hq', hlt, heq⟩
          · exact Or.inl ⟨cj, List.mem_cons_of_mem ci hcj, hnone, heq⟩
          · exact Or.inr ⟨cj, List.mem_cons_of_mem ci hcj, q, hq', hlt, heq⟩
    · have hl' : lineStockOkB db ci = false := by
        cases hb : lineStockOkB db ci
        · rfl
        · exact absurd hb hl
      unfold lineStockOkB at hl'
      cases hp : productsGet db ci.productId with
      | none =>
        refine ⟨"Product not found: " ++ ci.productId, ?_, ?_⟩
        · unfold validateCart; rw [hp]
        · exact Or.inl ⟨ci, List.mem_cons_self ci rest, hp, rfl⟩
      | some p =>
        rw [hp] at hl'
        have hq : p.quantity < ci.quantity := by
          simp at hl'; omega
        refine ⟨"Insufficient inventory for " ++ p.name ++ ". Available: "
            ++ toString p.quantity ++ ", Requested: " ++ toString ci.quantity, ?_, ?_⟩
        · unfold validateCart
          rw [hp]
          dsimp only
          rw [if_pos hq]
        · exact Or.inr ⟨ci, List.mem_cons_self ci rest, p, hp, hq, rfl⟩

/-- The products table is untouched by `transactionsAdd`. -/
theorem productsGet_transactionsAdd (db : Db) (t : Transaction) (now : Nat) (j : String) :
    productsGet (transactionsAdd db t now).1 j = productsGet db j := rfl

theorem productsGet_congr (d d' : Db) (h : d.products = d'.products) (j : String) :
    productsGet d j = productsGet d' j := by
  unfold productsGet; rw [h]

theorem applyProductUpdates_products_congr (us : List ProductUpdate) (now : Nat)
    (d d' : Db) (h : d.products = d'.products) :
    (applyProductUpdates d us now).products = (applyProductUpdates d' us now).products := by
  induction us generalizing d d' with
  | nil => exact h
  | cons u rest ih =>
    show (applyProductUpdates (productsUpdateQuantity d u.id u.newQuantity now) rest now).products
      = (applyProductUpdates (productsUpdateQuantity d' u.id u.newQuantity now) rest now).products
    exact ih _ _ (by unfold productsUpdateQuantity; simp [h])

/-- `applyProductUpdates_get_mem` restated with the update's fields
explicit. -/
theorem applyProductUpdates_get_mem2 (us : List ProductUpdate) (db : Db) (now : Nat)
    (i : String) (q : Int)
    (hmem : ({ id := i, newQuantity := q } : ProductUpdate) ∈ us)
    (hnodup : (us.map ProductUpdate.id).Nodup) :
    productsGet (applyProductUpdates db us now) i =
      (productsGet db i).map (fun p => { p with quantity := q, updatedAt := now }) :=
  applyProductUpdates_get_mem us db now _ hmem hnodup

/-- Characterization of the success path of `createTransaction` when every
line's stock check passes and the receipt collaborator does not raise. -/
theorem createTransaction_ok (gen : Transaction → Except String Unit) (db : Db)
    (now : Nat) (items : List CartItem)
    (hne : items ≠ [])
    (hstock : items.all (lineStockOkB db) = true)
    (hgen : ∀ t, gen t = .ok ()) :
    createTransaction gen db now items =
      (applyProductUpdates
         (transactionsAdd db
           { id := "", items := items.map (fun ci =>
               { productId := ci.productId, name := ci.name,
                 sellingPrice := ci.sellingPrice, costPrice := ci.costPrice,
                 quantity := ci.quantity }),
             total := (items.map (fun ci => ci.sellingPrice * ci.quantity)).sum,
             totalCost := (items.map (fun ci => ci.costPrice * ci.quantity)).sum,
             profit := (items.map (fun ci => ci.sellingPrice * ci.quantity)).sum
               - (items.map (fun ci => ci.costPrice * ci.quantity)).sum,
             timestamp := now, synced := false } now).1
         (items.map (fun ci =>
           { id := ci.productId, newQuantity := stockQty db ci.productId - ci.quantity }))
         now,
       { transaction := some
           { id := toString db.nextTxId,
             items := items.map (fun ci =>
               { productId := ci.productId, name := ci.name,
                 sellingPrice := ci.sellingPrice, costPrice := ci.costPrice,
                 quantity := ci.quantity }),
             total := (items.map (fun ci => ci.sellingPrice * ci.quantity)).sum,
             totalCost := (items.map (fun ci => ci.costPrice * ci.quantity)).sum,
             profit := (items.map (fun ci => ci.sellingPrice * ci.quantity)).sum
               - (items.map (fun ci => ci.costPrice * ci.quantity)).sum,
             timestamp := now, synced := false },
         success := true, error := none },
       [{ id := toString db.nextTxId,
          items := items.map (fun ci =>
            { productId := ci.productId, name := ci.name,
              sellingPrice := ci.sellingPrice, costPrice := ci.costPrice,
              quantity := ci.quantity }),
          total := (items.map (fun ci => ci.sellingPrice * ci.quantity)).sum,
          totalCost := (items.map (fun ci => ci.costPrice * ci.quantity)).sum,
          profit := (items.map (fun ci => ci.sellingPrice * ci.quantity)).sum
            - (items.map (fun ci => ci.costPrice * ci.quantity)).sum,
          timestamp := now, synced := false }]) := by
  unfold createTransaction
  rw [if_neg (by simpa using hne), validateCart_ok_of_all db items hstock]
  dsimp only
  rw [hgen]
  have ht : cartTotal (items.map (fun ci =>
      ({ productId := ci.productId, name := ci.name, sellingPrice := ci.sellingPrice,
         costPrice := ci.costPrice, quantity := ci.quantity } : TransactionItem))) =
      (items.map (fun ci => ci.sellingPrice * ci.quantity)).sum := by
    rw [cartTotal_eq, List.map_map]; rfl
  have hc : cartTotalCost (items.map (fun ci =>
      ({ productId := ci.productId, name := ci.name, sellingPrice := ci.sellingPrice,
         costPrice := ci.costPrice, quantity := ci.quantity } : TransactionItem))) =
      (items.map (fun ci => ci.costPrice * ci.quantity)).sum := by
    rw [cartTotalCost_eq, List.map_map]; rfl
  simp only [ht, hc, transactionsAdd, creatingHookTxn]

/-! ## Claim C1 -/

/-- C1 (amended): for every non-empty cart whose lines reference pairwise
distinct products and in which every line has sufficient stock,
`createTransaction` succeeds with `total`/`totalCost`/`profit` equal to the
arithmetic sums over the cart lines and `synced = false`, each referenced
product's quantity decreases by exactly its line's quantity, and no other
product row changes. -/
theorem createTransaction_atomicity (gen : Transaction → Except String Unit) (db : Db)
    (now : Nat) (items : List CartItem)
    (hne : items ≠ [])
    (hnodup : (items.map CartItem.productId).Nodup)
    (hstock : items.all (lineStockOkB db) = true)
    (hgen : ∀ t, gen t = .ok ()) :
    (createTransaction gen db now items).2.1.success = true ∧
    (∃ T, (createTransaction gen db now items).2.1.transaction = some T ∧
      T.total = (items.map (fun ci => ci.sellingPrice * ci.quantity)).sum ∧
      T.totalCost = (items.map (fun ci => ci.costPrice * ci.quantity)).sum ∧
      T.profit = T.total - T.totalCost ∧
      T.synced = false) ∧
    (∀ ci ∈ items, ∀ p, productsGet db ci.productId = some p →
      productsGet (createTransaction gen db now items).1 ci.productId =
        some { p with quantity := p.quantity - ci.quantity, updatedAt := now }) ∧
    (∀ j, j ∉ items.map CartItem.productId →
      productsGet (createTransaction gen db now items).1 j = productsGet db j) := by
  have hids : (items.map (fun ci =>
      ({ id := ci.productId, newQuantity := stockQty db ci.productId - ci.quantity }
        : ProductUpdate))).map ProductUpdate.id = items.map CartItem.productId := by
    rw [List.map_map]; rfl
  have hswap : ∀ j, productsGet (createTransaction gen db now items).1 j =
      productsGet (applyProductUpdates db (items.map (fun ci =>
        ({ id := ci.productId, newQuantity := stockQty db ci.productId - ci.quantity }
          : ProductUpdate))) now) j := by
    intro j
    rw [createTransaction_ok gen db now items hne hstock hgen]
    refine productsGet_congr _ _ (applyProductUpdates_products_congr _ now _ _ ?_) j
    rfl
  rw [createTransaction_ok gen db now items hne hstock hgen] at hswap ⊢
  refine ⟨rfl, ⟨_, rfl, rfl, rfl, rfl, rfl⟩, ?_, ?_⟩
  · intro ci hci p hp
    have hmem : ({ id := ci.productId,
                   newQuantity := stockQty db ci.productId - ci.quantity } : ProductUpdate) ∈
        items.map (fun ci =>
          ({ id := ci.productId, newQuantity := stockQty db ci.productId - ci.quantity }
            : ProductUpdate)) :=
      List.mem_map_of_mem _ hci
    rw [hswap ci.productId,
      applyProductUpdates_get_mem2 _ db now ci.productId _ hmem (by rw [hids]; exact hnodup),
      hp]
    have hsq : stockQty db ci.productId = p.quantity := by
      unfold stockQty; rw [hp]; rfl
    simp [hsq]
  · intro j hj
    rw [hswap j, applyProductUpdates_get_not_mem _ db now j (by rw [hids]; exact hj)]

/-- C1 witness: scenario A — cart `[{p1, 25, 15, qty 2}, {p2, 15, 8, qty 1}]`
against stock `p1 = 50, p2 = 30` gives `total = 65`, `totalCost = 38`,
`profit = 27`, `synced = false`, post-state `p1 = 48`, `p2 = 29`. -/
theorem createTransaction_atomicity_witness :
    (cartA ≠ [] ∧ (cartA.map CartItem.productId).Nodup ∧
      cartA.all (lineStockOkB dbA) = true) ∧
    (createTransaction genOk dbA 5 cartA).2.1.success = true ∧
    ((createTransaction genOk dbA 5 cartA).2.1.transaction).map Transaction.total = some 65 ∧
    ((createTransaction genOk dbA 5 cartA).2.1.transaction).map Transaction.totalCost = some 38 ∧
    ((createTransaction genOk dbA 5 cartA).2.1.transaction).map Transaction.profit = some 27 ∧
    ((createTransaction genOk dbA 5 cartA).2.1.transaction).map Transaction.synced = some false ∧
    (productsGet (createTransaction genOk dbA 5 cartA).1 "p1").map Product.quantity = some 48 ∧
    (productsGet (createTransaction genOk dbA 5 cartA).1 "p2").map Product.quantity = some 29 :=
  ⟨⟨by decide, by decide, by decide⟩,
   (createTransaction_atomicity genOk dbA 5 cartA (by decide) (by decide) (by decide)
     (fun t => rfl)).1,
   by decide, by decide, by decide, by decide, by decide, by decide⟩

/-- C1 counterexample: the cart `[{p1, qty 2}, {p1, qty 2}]` against stock
`p1 = 50` satisfies the claim's hypothesis (every line has sufficient
stock), the quantities requested for `p1` sum to 4, yet the post-state
quantity is 48, not 50 − 4: the second inventory update overwrites the
first instead of accumulating. -/
theorem createTransaction_duplicate_lines_cx :
    cartDup ≠ [] ∧
    cartDup.all (lineStockOkB dbA) = true ∧
    (cartDup.map (fun ci => ci.quantity)).sum = 4 ∧
    (productsGet dbA "p1").map Product.quantity = some 50 ∧
    (productsGet (createTransaction genOk dbA 5 cartDup).1 "p1").map Product.quantity = some 48 ∧
    ¬ (productsGet (createTransaction genOk dbA 5 cartDup).1 "p1").map Product.quantity
        = some (50 - 4) := by
  refine ⟨by decide, by decide, by decide, by decide, by decide, by decide⟩

/-! ## Claim C2 -/

/-- C2: for every cart that is empty or contains a line whose product is
missing or understocked, `createTransaction` returns a failure result of
the corresponding kind, the store is unchanged (no product quantity
changed, no transaction created), and no partial application occurs. -/
theorem createTransaction_allOrNothing (gen : Transaction → Except String Unit) (db : Db)
    (now : Nat) (items : List CartItem)
    (h : items = [] ∨ items.all (lineStockOkB db) = false) :
    (createTransaction gen db now items).1 = db ∧
    (createTransaction gen db now items).2.1.success = false ∧
    (createTransaction gen db now items).2.1.transaction = none ∧
    ∃ e, (createTransaction gen db now items).2.1.error = some e ∧
      ((items = [] ∧ e = "Cannot create transaction with empty cart") ∨
       (∃ ci ∈ items, productsGet db ci.productId = none ∧
          e = "Product not found: " ++ ci.productId) ∨
       (∃ ci ∈ items, ∃ p, productsGet db ci.productId = some p ∧
          p.quantity < ci.quantity ∧
          e = "Insufficient inventory for " ++ p.name ++ ". Available: "
            ++ toString p.quantity ++ ", Requested: " ++ toString ci.quantity)) := by
  rcases h with rfl | hbad
  · exact ⟨rfl, rfl, rfl, _, rfl, Or.inl ⟨rfl, rfl⟩⟩
  · have hne : items ≠ [] := by
      intro heq
      rw [heq] at hbad
      simp at hbad
    obtain ⟨e, he, hcase⟩ := validateCart_err_of_not_all db items hbad
    unfold createTransaction
    rw [if_neg (by simpa using hne), he]
    exact ⟨rfl, rfl, rfl, e, rfl, Or.inr hcase⟩

/-- C2 witness: scenario B — stock 5, cart requests 10: the call fails with
the insufficient-stock message and the stock remains 5; and the empty cart
fails with the empty-cart message leaving the store unchanged. -/
theorem createTransaction_allOrNothing_witness :
    cartB.all (lineStockOkB dbB) = false ∧
    (createTransaction genOk dbB 7 cartB).1 = dbB ∧
    (createTransaction genOk dbB 7 cartB).2.1.success = false ∧
    (createTransaction genOk dbB 7 cartB).2.1.error =
      some "Insufficient inventory for P1. Available: 5, Requested: 10" ∧
    (productsGet (createTransaction genOk dbB 7 cartB).1 "p1").map Product.quantity = some 5 ∧
    (createTransaction genOk dbB 7 cartB).1.transactions = [] ∧
    (createTransaction genOk dbA 9 []).1 = dbA ∧
    (createTransaction genOk dbA 9 []).2.1.error =
      some "Cannot create transaction with empty cart" :=
  ⟨by decide,
   (createTransaction_allOrNothing genOk dbB 7 cartB (Or.inr (by decide))).1,
   (createTransaction_allOrNothing genOk dbB 7 cartB (Or.inr (by decide))).2.1,
   by decide, by decide, by decide,
   (createTransaction_allOrNothing genOk dbA 9 [] (Or.inl rfl)).1,
   by decide⟩

/-! ## Claim C9 -/

/-- C9 (amended): on every valid cart the receipt collaborator is invoked
with exactly the finalized Transaction; when the collaborator does not
raise (the repository's ReceiptService never raises), the call succeeds as
in C1; the invocation happens inside the atomic unit, so a collaborator
that raises aborts the Dexie transaction — the store rolls back and the
caller receives a failure result. -/
theorem createTransaction_receipt_behavior (db : Db) (now : Nat) (items : List CartItem)
    (hne : items ≠ [])
    (hstock : items.all (lineStockOkB db) = true) :
    (∀ gen : Transaction → Except String Unit, (∀ t, gen t = .ok ()) →
      (createTransaction gen db now items).2.1.success = true ∧
      (createTransaction gen db now items).2.2 =
        ((createTransaction gen db now items).2.1.transaction).toList) ∧
    (∀ gen : Transaction → Except String Unit, ∀ msg, (∀ t, gen t = .error msg) →
      (createTransaction gen db now items).1 = db ∧
      (createTransaction gen db now items).2.1.success = false ∧
      (createTransaction gen db now items).2.2.length = 1) := by
  constructor
  · intro gen hgen
    rw [createTransaction_ok gen db now items hne hstock hgen]
    exact ⟨rfl, rfl⟩
  · intro gen msg hgen
    unfold createTransaction
    rw [if_neg (by simpa using hne), validateCart_ok_of_all db items hstock]
    dsimp only
    rw [hgen]
    exact ⟨rfl, rfl, rfl⟩

/-- C9 witness: on scenario A the non-raising collaborator is invoked with
exactly the finalized transaction and the call succeeds; the raising
collaborator leaves the store untouched. -/
theorem createTransaction_receipt_behavior_witness :
    (cartA ≠ [] ∧ cartA.all (lineStockOkB dbA) = true) ∧
    (createTransaction genOk dbA 5 cartA).2.2 =
      ((createTransaction genOk dbA 5 cartA).2.1.transaction).toList ∧
    (createTransaction genBad dbA 5 cartA).1 = dbA :=
  ⟨⟨by decide, by decide⟩,
   ((createTransaction_receipt_behavior dbA 5 cartA (by decide) (by decide)).1
     genOk (fun t => rfl)).2,
   ((createTransaction_receipt_behavior dbA 5 cartA (by decide) (by decide)).2
     genBad "receipt generation failed" (fun t => rfl)).1⟩

/-- C9 counterexample: with a receipt collaborator that raises, the
collaborator is invoked (trace length 1) on scenario A, yet the result is a
failure, the transaction is not committed and the inventory deduction is
rolled back — the claimed "failure does not roll back the committed
Transaction or the inventory deductions, and does not change the success
result" is false for the code as structured. -/
theorem receipt_failure_rollback_cx :
    (createTransaction genBad dbA 5 cartA).2.2.length = 1 ∧
    (createTransaction genBad dbA 5 cartA).2.1.success = false ∧
    (createTransaction genBad dbA 5 cartA).1 = dbA ∧
    (productsGet (createTransaction genBad dbA 5 cartA).1 "p1").map Product.quantity = some 50 ∧
    (createTransaction genBad dbA 5 cartA).1.transactions = [] := by
  refine ⟨by decide, by decide, by decide, by decide, by decide⟩

/-! ## Claim C3 -/

theorem getTransaction_congr (d d' : Db) (h : d.transactions = d'.transactions)
    (i : String) : getTransaction d i = getTransaction d' i := by
  unfold getTransaction; rw [h]

theorem productsPut_transactions (db : Db) (p : Product) (now : Nat) :
    (productsPut db p now).transactions = db.transactions := by
  unfold productsPut; split <;> rfl

/-- The transactions table after `createTransaction` is the old table,
possibly extended by the new row. -/
theorem createTransaction_transactions (gen : Transaction → Except String Unit)
    (db : Db) (now : Nat) (items : List CartItem) :
    (createTransaction gen db now items).1.transactions = db.transactions ∨
    ∃ t, (createTransaction gen db now items).1.transactions = db.transactions ++ [t] := by
  unfold createTransaction
  by_cases he : items.isEmpty
  · rw [if_pos he]; exact Or.inl rfl
  · rw [if_neg he]
    cases hv : validateCart db items with
    | error e => exact Or.inl rfl
    | ok pair =>
      dsimp only
      cases hg : gen _ with
      | error e => exact Or.inl rfl
      | ok u =>
        exact Or.inr ⟨_, by rw [applyProductUpdates_transactions]; exact rfl⟩

/-- One repository operation never rewrites a stored transaction's items,
totals or timestamp. -/
theorem getTransaction_applyDbOp (op : DbOp) (db : Db) (i : String) (T : Transaction)
    (h : getTransaction db i = some T) :
    ∃ T', getTransaction (applyDbOp db op) i = some T' ∧
      T'.items = T.items ∧ T'.total = T.total ∧ T'.totalCost = T.totalCost ∧
      T'.profit = T.profit ∧ T'.timestamp = T.timestamp := by
  cases op with
  | updProduct j u n => exact ⟨T, h, rfl, rfl, rfl, rfl, rfl⟩
  | delProduct j n => exact ⟨T, h, rfl, rfl, rfl, rfl, rfl⟩
  | putProduct p n =>
    refine ⟨T, ?_, rfl, rfl, rfl, rfl, rfl⟩
    show getTransaction (productsPut db p n) i = some T
    rw [getTransaction_congr _ db (productsPut_transactions db p n) i]
    exact h
  | markSynced ids =>
    have hmap : getTransaction (applyDbOp db (DbOp.markSynced ids)) i =
        (db.transactions.find? (fun t => t.id = i)).map
          (fun t => if t.id ∈ ids then { t with synced := true } else t) := by
      show (db.transactions.map (fun t =>
          if t.id ∈ ids then { t with synced := true } else t)).find?
          (fun t => t.id = i) = _
      exact find?_map_id_txn db.transactions _
        (fun t => by by_cases hc : t.id ∈ ids <;> simp [hc]) i
    refine ⟨if T.id ∈ ids then { T with synced := true } else T, ?_, ?_, ?_, ?_, ?_, ?_⟩
    · rw [hmap, show db.transactions.find? (fun t => t.id = i) = some T from h]
      rfl
    all_goals by_cases hc : T.id ∈ ids <;> simp [hc]
  | createTxn g n its =>
    rcases createTransaction_transactions g db n its with heq | ⟨t, heq⟩
    · refine ⟨T, ?_, rfl, rfl, rfl, rfl, rfl⟩
      show getTransaction (createTransaction g db n its).1 i = some T
      rw [getTransaction_congr _ db heq i]
      exact h
    · refine ⟨T, ?_, rfl, rfl, rfl, rfl, rfl⟩
      show ((createTransaction g db n its).1.transactions).find? (fun x => x.id = i) = some T
      rw [heq]
      exact find?_append_of_some _ db.transactions [t] T h

/-- C3: for any stored transaction `T` and any sequence of later local
mutations — product edits including price changes, product writes from the
sync engine, `synced`-flag updates, further sales — re-reading `T` yields
identical items (hence identical snapshotted `sellingPrice`/`costPrice`),
identical `total`/`totalCost`/`profit` and timestamp: no repository
operation rewrites a stored `TransactionItem`. -/
theorem transaction_price_isolation (ops : List DbOp) (db : Db) (i : String)
    (T : Transaction) (h : getTransaction db i = some T) :
    ∃ T', getTransaction (applyDbOps db ops) i = some T' ∧
      T'.items = T.items ∧ T'.total = T.total ∧ T'.totalCost = T.totalCost ∧
      T'.profit = T.profit ∧ T'.timestamp = T.timestamp := by
  induction ops generalizing db T with
  | nil => exact ⟨T, h, rfl, rfl, rfl, rfl, rfl⟩
  | cons op rest ih =>
    obtain ⟨T1, h1, hi1, ht1, hc1, hp1, hs1⟩ := getTransaction_applyDbOp op db i T h
    obtain ⟨T2, h2, hi2, ht2, hc2, hp2, hs2⟩ := ih (applyDbOp db op) T1 h1
    exact ⟨T2, h2, hi2.trans hi1, ht2.trans ht1, hc2.trans hc1,
      hp2.trans hp1, hs2.trans hs1⟩

/-- C3 witness: after editing the referenced product's prices to 999/888,
flipping the sync flag and soft-deleting the product, re-reading the stored
transaction yields the original snapshotted items and totals. -/
theorem transaction_price_isolation_witness :
    getTransaction dbW "1" = some T0 ∧
    (productsGet (applyDbOps dbW opsW) "p1").map Product.sellingPrice = some 999 ∧
    ∃ T', getTransaction (applyDbOps dbW opsW) "1" = some T' ∧
      T'.items = T0.items ∧ T'.total = T0.total ∧ T'.totalCost = T0.totalCost ∧
      T'.profit = T0.profit ∧ T'.timestamp = T0.timestamp :=
  ⟨by decide, by decide,
   transaction_price_isolation opsW dbW "1" T0 (by decide)⟩

/-! ## Claim C10 -/

/-- C10: a `performSync` call made while the device is offline returns the
offline failure result (error "Device is offline", all four counts 0) and
leaves the entire state — local store, cloud tables, flags, last-sync
time — untouched. -/
theorem performSync_offline_noop (env : SyncEnv) (now : Nat) (s : SyncState)
    (h : s.online = false) :
    performSync env now s = (s, offlineResult) := by
  unfold performSync
  rw [if_pos h]

/-- C10 witness: the concrete offline state is returned unchanged together
with the offline failure result. -/
theorem performSync_offline_noop_witness :
    sC10.online = false ∧
    performSync envAll 0 sC10 = (sC10, offlineResult) ∧
    offlineResult.error = some "Device is offline" ∧
    offlineResult.success = false ∧
    offlineResult.syncedTransactions = 0 ∧
    offlineResult.syncedProducts = 0 ∧
    offlineResult.pulledTransactions = 0 ∧
    offlineResult.pulledProducts = 0 :=
  ⟨by decide,
   performSync_offline_noop envAll 0 sC10 (by decide),
   by decide, by decide, by decide, by decide, by decide, by decide⟩

/-! ## Claim C8 -/

/-- C8 (amended): a `performSync` call made while online while another sync
is in progress is rejected with the sync-already-in-progress failure and
performs no work; every call — on every failure-injection environment —
terminates in a result value (success, or a failure carrying an error);
and a call that starts work always clears the in-progress flag on
completion.  (A call made while offline is rejected by the offline guard
first, even if a sync is in progress.) -/
theorem performSync_singleFlight_total (env : SyncEnv) (now : Nat) (s : SyncState) :
    (s.online = true → s.syncInProgress = true → performSync env now s = (s, inProgressResult)) ∧
    ((performSync env now s).2.success = true ∨
      ((performSync env now s).2.error).isSome = true) ∧
    (s.syncInProgress = false → (performSync env now s).1.syncInProgress = false) := by
  refine ⟨?_, ?_, ?_⟩
  · intro h1 h2
    simp [performSync, h1, h2]
  · unfold performSync
    split
    · simp [offlineResult]
    · split
      · simp [inProgressResult]
      · split
        · simp [failResult]
        · split
          · simp [failResult]
          · simp
  · intro h
    unfold performSync
    split
    · exact h
    · split
      · exact h
      · split
        · rfl
        · split
          · rfl
          · rfl

/-- C8 witness: a concrete online in-progress state is rejected with the
in-progress failure and unchanged; a concrete idle run returns a result
value and ends with the flag cleared. -/
theorem performSync_singleFlight_total_witness :
    performSync envAll 0 { sC5 with syncInProgress := true } =
      ({ sC5 with syncInProgress := true }, inProgressResult) ∧
    ((performSync envAll 0 sC5).2.success = true ∨
      ((performSync envAll 0 sC5).2.error).isSome = true) ∧
    (performSync envAll 0 sC5).1.syncInProgress = false :=
  ⟨(performSync_singleFlight_total envAll 0 { sC5 with syncInProgress := true }).1
     (by decide) (by decide),
   (performSync_singleFlight_total envAll 0 sC5).2.1,
   (performSync_singleFlight_total envAll 0 sC5).2.2 (by decide)⟩

/-- C8 counterexample: in a state that is offline while a sync is marked in
progress, the call is rejected by the offline guard — the result is the
offline failure, not the claimed sync-already-in-progress failure. -/
theorem performSync_offline_inProgress_cx :
    sC8.syncInProgress = true ∧
    (performSync envAll 0 sC8).2.error = some "Device is offline" ∧
    ¬ (performSync envAll 0 sC8).2.error = some "Sync already in progress" := by
  refine ⟨by decide, by decide, by decide⟩

/-! ## Claim C4 -/

/-- C4 (amended): product reconciliation is deterministic last-writer-wins
at whole-record granularity for pairs whose local record is **active**:
local newer → the local record is pushed to the remote store; remote newer
→ the remote record is pulled into the local store; equal timestamps →
neither side is mutated; an active product present only locally is created
remotely, and one present only remotely is created locally.  (Inactive
local products are invisible to the reconciliation loop — see the
counterexample.) -/
theorem syncProducts_lastWriterWins (env : SyncEnv) (uid : String) (now : Nat)
    (hsel : env.selectProductsOk = true) (hup : env.upsertProductOk = true) :
    (∀ s lp cp, s.db.products = [lp] → s.cloudProducts = [cp] → lp.isActive = true →
      cp.user_id = uid → cp.id = lp.id →
      (lp.updatedAt > cp.updated_at →
        syncProducts env uid now s =
          ({ s with cloudProducts := [toCloudProduct uid lp] }, .ok 1)) ∧
      (cp.updated_at > lp.updatedAt →
        syncProducts env uid now s =
          ({ s with db := { s.db with
              products := [{ fromCloudProduct cp with updatedAt := now }] } }, .ok 1)) ∧
      (cp.updated_at = lp.updatedAt →
        syncProducts env uid now s = (s, .ok 0))) ∧
    (∀ s lp, s.db.products = [lp] → s.cloudProducts = [] → lp.isActive = true →
      syncProducts env uid now s =
        ({ s with cloudProducts := [toCloudProduct uid lp] }, .ok 1)) ∧
    (∀ s cp, s.db.products = [] → s.cloudProducts = [cp] → cp.user_id = uid →
      syncProducts env uid now s =
        ({ s with db := { s.db with
            products := [{ fromCloudProduct cp with createdAt := now, updatedAt := now }] } },
         .ok 1)) := by
  refine ⟨?_, ?_, ?_⟩
  · intro s lp cp hdb hcloud hact huser hid
    have hloc : getAllProducts s.db = [lp] := by simp [getAllProducts, hdb, hact]
    have hcl : s.cloudProducts.filter (fun r => r.user_id = uid) = [cp] := by
      simp [hcloud, huser]
    refine ⟨?_, ?_, ?_⟩
    · intro hts
      have hts' : cp.updated_at < lp.updatedAt := hts
      simp [syncProducts, hsel, hloc, hcl, syncProductsLoopLocal, hid, huser, hts',
        pushProductToCloud, hup, cloudUpsertProductRow, hcloud,
        syncProductsLoopCloud, toCloudProduct]
    · intro hts
      have hts' : lp.updatedAt < cp.updated_at := hts
      have hlt : ¬ cp.updated_at < lp.updatedAt := by omega
      simp [syncProducts, hsel, hloc, hcl, syncProductsLoopLocal, hid, huser, hts', hlt,
        pullProductFromCloud, productsPut, hdb, fromCloudProduct,
        syncProductsLoopCloud]
    · intro hts
      have h1 : ¬ cp.updated_at < lp.updatedAt := by omega
      have h2 : ¬ lp.updatedAt < cp.updated_at := by omega
      simp [syncProducts, hsel, hloc, hcl, syncProductsLoopLocal, hid, huser, h1, h2,
        syncProductsLoopCloud]
  · intro s lp hdb hcloud hact
    have hloc : getAllProducts s.db = [lp] := by simp [getAllProducts, hdb, hact]
    have hcl : s.cloudProducts.filter (fun r => r.user_id = uid) = [] := by
      simp [hcloud]
    simp [syncProducts, hsel, hloc, hcl, syncProductsLoopLocal,
      pushProductToCloud, hup, cloudUpsertProductRow, hcloud,
      syncProductsLoopCloud]
  · intro s cp hdb hcloud huser
    have hloc : getAllProducts s.db = [] := by simp [getAllProducts, hdb]
    have hcl : s.cloudProducts.filter (fun r => r.user_id = uid) = [cp] := by
      simp [hcloud, huser]
    simp [syncProducts, hsel, hloc, hcl, syncProductsLoopLocal,
      syncProductsLoopCloud, pullProductFromCloud, productsPut, hdb,
      fromCloudProduct]

/-- C4 witness: the five reconciliation outcomes on concrete single-pair
states — local newer pushes, remote newer pulls, tie leaves both sides,
local-only creates remotely, remote-only creates locally. -/
theorem syncProducts_lastWriterWins_witness :
    syncProducts envAll "u" 50 sPush =
      ({ sPush with cloudProducts := [toCloudProduct "u" lpA] }, .ok 1) ∧
    syncProducts envAll "u" 50 sPull =
      ({ sPull with db := { sPull.db with
          products := [{ fromCloudProduct cpNew with updatedAt := 50 }] } }, .ok 1) ∧
    syncProducts envAll "u" 50 sTie = (sTie, .ok 0) ∧
    syncProducts envAll "u" 50 sOnlyLocal =
      ({ sOnlyLocal with cloudProducts := [toCloudProduct "u" lpA] }, .ok 1) ∧
    syncProducts envAll "u" 50 sOnlyRemote =
      ({ sOnlyRemote with db := { sOnlyRemote.db with
          products := [{ fromCloudProduct cpOld with createdAt := 50, updatedAt := 50 }] } },
       .ok 1) :=
  ⟨((syncProducts_lastWriterWins envAll "u" 50 (by decide) (by decide)).1 sPush lpA cpOld
      (by decide) (by decide) (by decide) (by decide) (by decide)).1 (by decide),
   ((syncProducts_lastWriterWins envAll "u" 50 (by decide) (by decide)).1 sPull lpA cpNew
      (by decide) (by decide) (by decide) (by decide) (by decide)).2.1 (by decide),
   ((syncProducts_lastWriterWins envAll "u" 50 (by decide) (by decide)).1 sTie lpA cpEq
      (by decide) (by decide) (by decide) (by decide) (by decide)).2.2 (by decide),
   (syncProducts_lastWriterWins envAll "u" 50 (by decide) (by decide)).2.1 sOnlyLocal lpA
      (by decide) (by decide) (by decide),
   (syncProducts_lastWriterWins envAll "u" 50 (by decide) (by decide)).2.2 sOnlyRemote cpOld
      (by decide) (by decide) (by decide)⟩

/-- C4 counterexample: for the pair (`lpInactive`, `cpOld`) with
`local.updatedAt = 10 > 5 = remote.updated_at`, the claim demands that the
local record be pushed to the remote store; instead `syncProducts` leaves
the remote row untouched and overwrites the newer local record with the
remote one, because the reconciliation loop only iterates over active
local products and the second loop pulls any cloud row absent from that
active list. -/
theorem syncProducts_inactive_local_cx :
    lpInactive.updatedAt > cpOld.updated_at ∧
    sC4.db.products = [lpInactive] ∧ sC4.cloudProducts = [cpOld] ∧
    (syncProducts envAll "u" 50 sC4).1.cloudProducts = [cpOld] ∧
    ¬ (syncProducts envAll "u" 50 sC4).1.cloudProducts = [toCloudProduct "u" lpInactive] ∧
    (productsGet (syncProducts envAll "u" 50 sC4).1.db "p").map Product.name = some "R" ∧
    ¬ (syncProducts envAll "u" 50 sC4).1.db.products = [lpInactive] := by
  refine ⟨by decide, by decide, by decide, by decide, by decide, by decide, by decide⟩

/-! ## Sync-phase bookkeeping lemmas -/

theorem getProductsCount_congr (d d' : Db) (h : d.products = d'.products) :
    getProductsCount d = getProductsCount d' := by
  unfold getProductsCount; rw [h]

theorem pushTransactionsToCloud_products (env : SyncEnv) (uid : String) (s : SyncState)
    (txns : List Transaction) :
    (pushTransactionsToCloud env uid s txns).1.db.products = s.db.products := by
  unfold pushTransactionsToCloud
  split <;> rfl

theorem syncProductsLoopLocal_transactions (env : SyncEnv) (uid : String) (now : Nat) :
    ∀ (lps : List Product) (cloud : List CloudProductRow) (s : SyncState) (n : Nat),
      (syncProductsLoopLocal env uid now lps cloud s n).1.db.transactions =
        s.db.transactions := by
  intro lps
  induction lps with
  | nil => intro cloud s n; rfl
  | cons lp rest ih =>
    intro cloud s n
    cases hf : cloud.find? (fun cp => cp.id = lp.id) with
    | none =>
      by_cases hok : env.upsertProductOk = false
      · simp [syncProductsLoopLocal, hf, pushProductToCloud, hok]
      · simp [syncProductsLoopLocal, hf, pushProductToCloud, hok, ih]
    | some cp =>
      by_cases h1 : lp.updatedAt > cp.updated_at
      · by_cases hok : env.upsertProductOk = false
        · simp [syncProductsLoopLocal, hf, pushProductToCloud, h1, hok]
        · simp [syncProductsLoopLocal, hf, pushProductToCloud, h1, hok, ih]
      · by_cases h2 : cp.updated_at > lp.updatedAt
        · simp [syncProductsLoopLocal, hf, h1, h2, ih, pullProductFromCloud,
            productsPut_transactions]
        · simp [syncProductsLoopLocal, hf, h1, h2, ih]

theorem syncProductsLoopCloud_transactions (now : Nat) :
    ∀ (cloud : List CloudProductRow) (locals : List Product) (s : SyncState) (n : Nat),
      (syncProductsLoopCloud now cloud locals s n).1.db.transactions =
        s.db.transactions := by
  intro cloud
  induction cloud with
  | nil => intro locals s n; rfl
  | cons cp rest ih =>
    intro locals s n
    by_cases h : locals.any (fun lp => lp.id = cp.id)
    · simp [syncProductsLoopCloud, h, ih]
    · simp [syncProductsLoopCloud, h, ih, pullProductFromCloud,
        productsPut_transactions]

theorem syncProducts_transactions (env : SyncEnv) (uid : String) (now : Nat)
    (s : SyncState) :
    (syncProducts env uid now s).1.db.transactions = s.db.transactions := by
  unfold syncProducts
  by_cases hsel : env.selectProductsOk = false
  · rw [if_pos hsel]
  · rw [if_neg hsel]
    rcases hl : syncProductsLoopLocal env uid now (getAllProducts s.db)
        (s.cloudProducts.filter (fun r => r.user_id = uid)) s 0 with ⟨s1, r1⟩
    have h1 := syncProductsLoopLocal_transactions env uid now (getAllProducts s.db)
      (s.cloudProducts.filter (fun r => r.user_id = uid)) s 0
    rw [hl] at h1
    cases r1 with
    | error e => exact h1
    | ok n1 => exact (syncProductsLoopCloud_transactions now _ _ _ _).trans h1

/-- When the store already holds an active product, `syncTry` skips the
one-shot full pull: the reported pull counts are zero. -/
theorem syncTry_pulls_zero (env : SyncEnv) (now : Nat) (uid : String) (s0 : SyncState)
    (h : getProductsCount s0.db ≠ 0) :
    ∀ counts, (syncTry env now uid s0).2 = .ok counts → counts.2.1 = (0, 0) := by
  intro counts
  unfold syncTry
  rcases hpush : (if (getUnsyncedTransactions s0.db).isEmpty then (s0, Except.ok 0)
      else pushTransactionsToCloud env uid s0 (getUnsyncedTransactions s0.db)) with ⟨s1, r1⟩
  cases r1 with
  | error e => dsimp only; intro hc; cases hc
  | ok nTx =>
    dsimp only
    have hprod : s1.db.products = s0.db.products := by
      by_cases hemp : (getUnsyncedTransactions s0.db).isEmpty
      · rw [if_pos hemp] at hpush
        cases hpush
        rfl
      · rw [if_neg hemp] at hpush
        have := pushTransactionsToCloud_products env uid s0 (getUnsyncedTransactions s0.db)
        rw [hpush] at this
        exact this
    have hcnt : getProductsCount s1.db ≠ 0 := by
      rw [getProductsCount_congr s1.db s0.db hprod]
      exact h
    rw [if_neg (by simpa using hcnt)]
    intro hc
    dsimp only at hc
    rcases hsp : syncProducts env uid now s1 with ⟨s3, r3⟩
    rw [hsp] at hc
    cases r3 with
    | error e => dsimp only at hc; cases hc
    | ok nProd =>
      dsimp only at hc
      cases hc
      rfl

/-- When there is nothing unsynced, `syncTry` pushes zero transactions. -/
theorem syncTry_nTx_zero (env : SyncEnv) (now : Nat) (uid : String) (s0 : SyncState)
    (h : getUnsyncedTransactions s0.db = []) :
    ∀ counts, (syncTry env now uid s0).2 = .ok counts → counts.1 = 0 := by
  intro counts
  unfold syncTry
  rw [h]
  simp only [List.isEmpty_nil, if_pos]
  intro hc
  rcases hpull : (if getProductsCount s0.db = 0 then pullCompleteDataset env uid now s0
      else (s0, Except.ok (0, 0))) with ⟨s2, r2⟩
  rw [hpull] at hc
  cases r2 with
  | error e => dsimp only at hc; cases hc
  | ok pulls =>
    dsimp only at hc
    rcases hsp : syncProducts env uid now s2 with ⟨s3, r3⟩
    rw [hsp] at hc
    cases r3 with
    | error e => dsimp only at hc; cases hc
    | ok nProd =>
      dsimp only at hc
      cases hc
      rfl

/-- Marking covers every unsynced row: afterwards every row is synced. -/
theorem markTransactionsSynced_all (db : Db) (ids : List String)
    (h : ∀ t ∈ db.transactions, t.synced = false → t.id ∈ ids) :
    ∀ t ∈ (markTransactionsSynced db ids).transactions, t.synced = true := by
  intro t ht
  obtain ⟨t0, ht0, rfl⟩ := List.mem_map.mp ht
  by_cases hs : t0.synced
  · by_cases hc : t0.id ∈ ids <;> simp [hc, hs]
  · have hs' : t0.synced = false := by simpa using hs
    have := h t0 ht0 hs'
    simp [this]

/-- After a `syncTry` whose push succeeded with every unsynced id non-empty
and with a non-empty active product table, every stored transaction is
synced. -/
theorem syncTry_all_synced (env : SyncEnv) (now : Nat) (uid : String) (s0 : SyncState)
    (henv : env.pushTxUpsertOk = true)
    (hcount : getProductsCount s0.db ≠ 0)
    (hids : ∀ t ∈ s0.db.transactions, t.synced = false → t.id ≠ "") :
    ∀ t ∈ (syncTry env now uid s0).1.db.transactions, t.synced = true := by
  have hmark : ∀ t ∈ s0.db.transactions, t.synced = false →
      t.id ∈ ((getUnsyncedTransactions s0.db).map Transaction.id).filter
        (fun i => i ≠ "") := by
    intro t ht hs
    refine List.mem_filter.mpr ⟨?_, by simpa using hids t ht hs⟩
    exact List.mem_map_of_mem Transaction.id (List.mem_filter.mpr ⟨ht, by simp [hs]⟩)
  unfold syncTry
  rcases hpush : (if (getUnsyncedTransactions s0.db).isEmpty then (s0, Except.ok 0)
      else pushTransactionsToCloud env uid s0 (getUnsyncedTransactions s0.db)) with ⟨s1, r1⟩
  have htx : ∀ t ∈ s1.db.transactions, t.synced = true := by
    by_cases hemp : (getUnsyncedTransactions s0.db).isEmpty
    · rw [if_pos hemp] at hpush
      cases hpush
      intro t ht
      have hnil : getUnsyncedTransactions s0.db = [] := by
        simpa [List.isEmpty_iff] using hemp
      have := (List.filter_eq_nil_iff.mp hnil) t ht
      simpa using this
    · rw [if_neg hemp] at hpush
      unfold pushTransactionsToCloud at hpush
      rw [if_neg (by simp [henv])] at hpush
      cases hpush
      exact markTransactionsSynced_all s0.db _ hmark
  have hprod : s1.db.products = s0.db.products := by
    by_cases hemp : (getUnsyncedTransactions s0.db).isEmpty
    · rw [if_pos hemp] at hpush
      cases hpush
      rfl
    · rw [if_neg hemp] at hpush
      have := pushTransactionsToCloud_products env uid s0 (getUnsyncedTransactions s0.db)
      rw [hpush] at this
      exact this
  cases r1 with
  | error e => exact htx
  | ok nTx =>
    dsimp only
    have hcnt : getProductsCount s1.db ≠ 0 := by
      rw [getProductsCount_congr s1.db s0.db hprod]
      exact hcount
    rw [if_neg (by simpa using hcnt)]
    dsimp only
    intro t ht
    rcases hsp : syncProducts env uid now s1 with ⟨s3, r3⟩
    have h3 := syncProducts_transactions env uid now s1
    rw [hsp] at h3 ht
    cases r3 with
    | error e =>
      dsimp only at h3 ht
      exact htx t (h3 ▸ ht)
    | ok nProd =>
      dsimp only at h3 ht
      exact htx t (h3 ▸ ht)

/-- With nothing left unsynced, a `performSync` call reports zero pushed
transactions on every path. -/
theorem performSync_syncedTransactions_zero (env : SyncEnv) (now : Nat) (s : SyncState)
    (h : getUnsyncedTransactions s.db = []) :
    (performSync env now s).2.syncedTransactions = 0 := by
  unfold performSync
  split
  · rfl
  · split
    · rfl
    · split
      · rfl
      · split
        next sN e heq => rfl
        next sN counts heq =>
          exact syncTry_nTx_zero env now _ { s with syncInProgress := true } h counts
            (by rw [heq])

/-! ## Claim C5 -/

/-- C5 (amended): in the push phase of `performSync`, a successful remote
upsert reports the number of pushed transactions and flips `synced = true`
for exactly the rows whose ids were pushed (every other row is returned
bit-for-bit unchanged); a failed upsert throws before anything is marked,
leaving the state untouched; and an immediately repeated sync pushes zero
transactions, provided the first call did not run the empty-table full
pull (which can insert remote transactions as unsynced — see C6). -/
theorem pushPhase_behavior (env : SyncEnv) (uid : String) (s : SyncState) :
    (env.pushTxUpsertOk = true →
      (pushTransactionsToCloud env uid s (getUnsyncedTransactions s.db)).2 =
        .ok (getUnsyncedTransactions s.db).length ∧
      (∀ k (hk : k < s.db.transactions.length),
        (pushTransactionsToCloud env uid s (getUnsyncedTransactions s.db)).1.db.transactions[k]? =
          some (if s.db.transactions[k].id ∈
              ((getUnsyncedTransactions s.db).map Transaction.id).filter (fun i => i ≠ "")
            then { s.db.transactions[k] with synced := true }
            else s.db.transactions[k]))) ∧
    (env.pushTxUpsertOk = false →
      pushTransactionsToCloud env uid s (getUnsyncedTransactions s.db) =
        (s, .error "Failed to push transactions to cloud")) ∧
    (∀ now1 now2, env.pushTxUpsertOk = true → s.online = true → s.syncInProgress = false →
      s.authUser = some uid → getProductsCount s.db ≠ 0 →
      (∀ t ∈ s.db.transactions, t.synced = false → t.id ≠ "") →
      (performSync env now2 (performSync env now1 s).1).2.syncedTransactions = 0) := by
  refine ⟨?_, ?_, ?_⟩
  · intro henv
    constructor
    · unfold pushTransactionsToCloud
      rw [if_neg (by simp [henv])]
    · intro k hk
      unfold pushTransactionsToCloud
      rw [if_neg (by simp [henv])]
      show (markTransactionsSynced s.db _).transactions[k]? = _
      unfold markTransactionsSynced
      show (s.db.transactions.map _)[k]? = _
      rw [List.getElem?_map, List.getElem?_eq_getElem hk]
      rfl
  · intro henv
    unfold pushTransactionsToCloud
    rw [if_pos (by simp [henv])]
  · intro now1 now2 henv hon hpr hauth hcnt hids
    have hall : ∀ t ∈ (performSync env now1 s).1.db.transactions, t.synced = true := by
      unfold performSync
      rw [if_neg (by simp [hon]), if_neg (by simp [hpr]), hauth]
      dsimp only
      have hsyn := syncTry_all_synced env now1 uid
        { s with authUser := some uid, syncInProgress := true } henv hcnt hids
      rcases hst : syncTry env now1 uid
        { s with authUser := some uid, syncInProgress := true } with ⟨sN, r⟩
      rw [hst] at hsyn
      cases r with
      | error e => exact hsyn
      | ok counts => exact hsyn
    have hnone : getUnsyncedTransactions (performSync env now1 s).1.db = [] := by
      refine List.filter_eq_nil_iff.mpr ?_
      intro t ht
      simp [hall t ht]
    exact performSync_syncedTransactions_zero env now2 _ hnone

/-- C5 witness: scenario C — two unsynced transactions and a non-empty
product table: the first call reports `syncedTransactions = 2` and flips
both rows to `synced = true`; the repeated call reports
`syncedTransactions = 0`. -/
theorem pushPhase_behavior_witness :
    (pushTransactionsToCloud envAll "u" sScenC (getUnsyncedTransactions sScenC.db)).2 =
      .ok (getUnsyncedTransactions sScenC.db).length ∧
    (performSync envAll 100 sScenC).2.syncedTransactions = 2 ∧
    (getTransaction (performSync envAll 100 sScenC).1.db "t1").map Transaction.synced =
      some true ∧
    (getTransaction (performSync envAll 100 sScenC).1.db "t2").map Transaction.synced =
      some true ∧
    (performSync envAll 200 (performSync envAll 100 sScenC).1).2.syncedTransactions = 0 :=
  ⟨((pushPhase_behavior envAll "u" sScenC).1 (by decide)).1,
   by decide, by decide, by decide,
   (pushPhase_behavior envAll "u" sScenC).2.2 100 200 (by decide) (by decide) (by decide)
     (by decide) (by decide) (by decide)⟩

/-- C5 counterexample: with an empty local product table and a remote
transaction, the first (fully successful) sync pushes the one unsynced
local transaction, but its full pull re-inserts the remote transaction as
unsynced (the creating hook), so the immediately repeated sync pushes one
transaction again instead of the claimed zero. -/
theorem repeatedSync_nonzero_cx :
    getProductsCount sC5.db = 0 ∧
    envAll.pushTxUpsertOk = true ∧
    (performSync envAll 100 sC5).2.success = true ∧
    (performSync envAll 100 sC5).2.syncedTransactions = 1 ∧
    (performSync envAll 200 (performSync envAll 100 sC5).1).2.syncedTransactions = 1 ∧
    ¬ (performSync envAll 200 (performSync envAll 100 sC5).1).2.syncedTransactions = 0 := by
  refine ⟨by decide, by decide, by decide, by decide, by decide, by decide⟩

/-! ## Claim C6 -/

/-- C6: the sync boundary maps a pulled cloud transaction with
`synced = true`, but on an empty local store the row is newly created, so
the `transactions` creating hook of database.ts overrides the flag: the
stored row has `synced = false`, contradicting both the claim and the
source comment "Mark as synced since they came from cloud". -/
theorem pulledTransaction_stored_unsynced :
    (fromCloudTxn t9row).synced = true ∧
    getProductsCount sC6.db = 0 ∧
    (performSync envAll 100 sC6).2.success = true ∧
    (performSync envAll 100 sC6).2.pulledTransactions = 1 ∧
    (getTransaction (performSync envAll 100 sC6).1.db "t9").map Transaction.synced =
      some false := by
  refine ⟨by decide, by decide, by decide, by decide, by decide⟩

/-! ## Claim C7 -/

/-- C7 (amended): the one-shot full pull runs only when the local store
has no active product (whenever one exists, both pull counts are zero);
the per-product reconciliation step, however, runs unconditionally in the
same call — in particular, on an empty local store a cloud product that is
invisible to the full pull because it is inactive is still pulled in by
the reconciliation loop of that very call. -/
theorem performSync_pull_and_reconcile (env : SyncEnv) (now : Nat) :
    (∀ s : SyncState, getProductsCount s.db ≠ 0 →
      (performSync env now s).2.pulledProducts = 0 ∧
      (performSync env now s).2.pulledTransactions = 0) ∧
    (∀ (s : SyncState) (uid : String) (cp : CloudProductRow),
      env.selectProductsOk = true → env.selectTransactionsOk = true →
      s.online = true → s.syncInProgress = false → s.authUser = some uid →
      s.db.products = [] → s.db.transactions = [] → s.cloudTransactions = [] →
      s.cloudProducts = [cp] → cp.user_id = uid → cp.is_active = false →
      (performSync env now s).2.success = true ∧
      (performSync env now s).2.pulledProducts = 0 ∧
      (performSync env now s).2.syncedProducts = 1 ∧
      productsGet (performSync env now s).1.db cp.id =
        some { fromCloudProduct cp with createdAt := now, updatedAt := now }) := by
  constructor
  · intro s hcnt
    unfold performSync
    split
    · exact ⟨rfl, rfl⟩
    · split
      · exact ⟨rfl, rfl⟩
      · split
        · exact ⟨rfl, rfl⟩
        · split
          next sN e heq => exact ⟨rfl, rfl⟩
          next sN counts heq =>
            have hz := syncTry_pulls_zero env now _ { s with syncInProgress := true }
              hcnt counts (by rw [heq])
            constructor
            · show counts.2.1.1 = 0
              rw [hz]
            · show counts.2.1.2 = 0
              rw [hz]
  · intro s uid cp hselP hselT hon hpr hauth hprod0 htx0 hct0 hcp huser hinact
    have hu : getUnsyncedTransactions s.db = [] := by
      simp [getUnsyncedTransactions, htx0]
    have hcnt : getProductsCount s.db = 0 := by
      simp [getProductsCount, hprod0]
    simp [performSync, hon, hpr, hauth, syncTry, hu, hcnt, pullCompleteDataset,
      hselP, hselT, hcp, huser, hinact, hct0, syncProducts, getAllProducts, hprod0,
      syncProductsLoopLocal, syncProductsLoopCloud, pullProductFromCloud,
      productsPut, productsGet, fromCloudProduct]

/-- C7 witness: with an active product in the store pulls are skipped; on
the empty store with one inactive cloud product, the same successful call
pulls nothing via the full pull yet reconciles (and locally creates) that
product. -/
theorem performSync_pull_and_reconcile_witness :
    ((performSync envAll 100 sScenC).2.pulledProducts = 0 ∧
      (performSync envAll 100 sScenC).2.pulledTransactions = 0) ∧
    ((performSync envAll 100 sC7).2.success = true ∧
      (performSync envAll 100 sC7).2.pulledProducts = 0 ∧
      (performSync envAll 100 sC7).2.syncedProducts = 1 ∧
      productsGet (performSync envAll 100 sC7).1.db qrow.id =
        some { fromCloudProduct qrow with createdAt := 100, updatedAt := 100 }) :=
  ⟨(performSync_pull_and_reconcile envAll 100).1 sScenC (by decide),
   (performSync_pull_and_reconcile envAll 100).2 sC7 "u" qrow (by decide) (by decide)
     (by decide) (by decide) (by decide) (by decide) (by decide) (by decide) (by decide)
     (by decide) (by decide)⟩

/-- C7 counterexample: in a state whose local Product table is empty the
claim says only the full pull runs and reconciliation does not; the code
runs both — the call reports `syncedProducts = 1` (the reconciliation loop
pulled the inactive cloud product the full pull had skipped) and the
product lands in the local store. -/
theorem reconcile_runs_when_empty_cx :
    getProductsCount sC7.db = 0 ∧
    (performSync envAll 100 sC7).2.success = true ∧
    (performSync envAll 100 sC7).2.pulledProducts = 0 ∧
    (performSync envAll 100 sC7).2.syncedProducts = 1 ∧
    ¬ (performSync envAll 100 sC7).2.syncedProducts = 0 ∧
    ¬ (performSync envAll 100 sC7).1.db.products = [] := by
  refine ⟨by decide, by decide, by decide, by decide, by decide, by decide⟩

end Pos
